import Mathlib

/-!
Verification of the isar-turtlebot adapter core
(`robotinterface.py` and `ros_bridge/topic.py`).

The Python code is shallowly embedded as pure Lean functions.  Time is
modelled in discrete ticks: one tick is one `time.sleep(0.1)` step of a
polling loop, so a timeout of `τ` ticks corresponds to the source's
`execution_time > timeout` check with `execution_time = 0.1 * ticks`.
The asynchronous environment (the latest cached message of each topic at
every tick, and the file-existence answer of `stored_image` at every tick)
is a parameter of each loop, written as a function of the tick counter.
Loops are written with an explicit fuel argument that counts the ticks
remaining until the deadline check must fire; the fuel is always called
with value `deadline + 1 - startTick`, which makes the fuel-exhausted
branch unreachable (the deadline check of the source fires first), and
keeps every definition structurally recursive and kernel-executable.

Python exceptions are embedded as an `Except PyError` result; an uncaught
exception of the source is an `Except.error` value that propagates through
the translation of each call site exactly where the source has no
`try/except`.
-/

namespace IsarTurtlebot

/-- The Python exception classes that the two source files can raise,
together with the timeout information carried in the `TimeoutError`
messages (the source distinguishes the three raise sites only by the
message text; we record the distinguishing data directly). -/
inductive TimeoutKind where
  /-- Raised as `"Scheduling of task for TurtleBot3 timed out. Run ID: ..."`,
  raised in `Robot._wait_for_updated_task`; carries `current_run_id`,
  the last identifier read before the deadline expired. -/
  | scheduling (lastRunId : Option String)
  /-- Raised as `"Drive to inspection pose task for TurtleBot3 timed out. ..."`,
  raised in the navigation wait of `Robot._do_inspection_task`; carries
  the `self._get_run_id()` value read while formatting the message. -/
  | driveTimeout (runId : Option String)
  /-- Raised as `"Storing image for TurtleBot3 timed out. ..."`, in the
  capture wait of `Robot._do_inspection_task`. -/
  | storeTimeout (runId : Option String)
  deriving DecidableEq, Repr

/-- Python exception classes appearing in the embedded code. -/
inductive PyError where
  | keyError
  | indexError
  | typeError
  | fileNotFoundError
  | attributeError
  | binasciiError
  | unicodeEncodeError
  | notImplementedError
  | timeoutError (kind : TimeoutKind)
  deriving DecidableEq, Repr

/-! ## Python string operations

`str.replace(old, new)` (replace every non-overlapping occurrence, left
to right) and `str.split(sep)` are embedded over `List Char`.
`pyReplaceAux` consumes at least one character per step, so fuel equal to
the length of the string suffices; the fuel-exhausted branch is
unreachable under that call pattern. -/

/-- One left-to-right pass of Python `str.replace`, with explicit fuel. -/
def pyReplaceAux (old new : List Char) : Nat → List Char → List Char
  | _, [] => []
  | 0, s => s
  | fuel + 1, c :: cs =>
    if !old.isEmpty && old.isPrefixOf (c :: cs) then
      new ++ pyReplaceAux old new fuel ((c :: cs).drop old.length)
    else
      c :: pyReplaceAux old new fuel cs

/-- Python `s.replace(old, new)`: replace every non-overlapping
occurrence of `old` in `s` by `new`, scanning left to right. -/
def pyReplace (old new s : List Char) : List Char :=
  pyReplaceAux old new s.length s

/-- Python `s.split(sep)` for a one-character separator: the list of
(possibly empty) segments of `s` between occurrences of `sep`.  Always
returns at least one segment. -/
def pySplit (sep : Char) : List Char → List (List Char)
  | [] => [[]]
  | c :: cs =>
    if c = sep then [] :: pySplit sep cs
    else
      match pySplit sep cs with
      | [] => [[c]]
      | seg :: segs => (c :: seg) :: segs

/-- The run-identifier normalization of `Robot._get_run_id`
(robotinterface.py line 270):
`run_id.replace("move_base-", "").split(".")[0].replace("-", "")`. -/
def normalizeRunId (run_id : String) : String :=
  String.mk
    (pyReplace ['-'] []
      ((pySplit '.' (pyReplace "move_base-".data [] run_id.data)).headD []))

/-! ## The navigation-status message

`self.bridge.mission_status.get_value()` yields the latest cached
message of the `/move_base/status` topic, or `None` if no message has
arrived yet.  A present message is a dict; a key that may be missing is
embedded as an `Option` field.  The `status` entry of the source is a
raw integer code mapped through
`TurtlebotStatus.map_to_turtlebot_status`; that enum and mapping live in
`isar_turtlebot/models/turtlebot_status.py`, which is not among the
provided source files, so the field carries the mapped value directly. -/

/-- Modelled from the spec: the `TurtlebotStatus` enumeration of the
module `isar_turtlebot/models/turtlebot_status.py` (not among the
provided source files).  The spec (§3) describes it as the enumeration
`{Active, Succeeded, Failure, ...}` derived by mapping a transport
status code; only equality with `Succeeded` and the values `Active` and
`Failure` are used by the embedded code. -/
inductive TurtlebotStatus where
  | Active
  | Succeeded
  | Failure
  | Unexpected
  deriving DecidableEq, Repr

/-- The `goal_id` sub-dict of a status-list entry; the key `id` may be
missing (then a `KeyError` is raised on access). -/
structure GoalIdMsg where
  id : Option String
  deriving DecidableEq, Repr

/-- One entry of `message["status_list"]`.  `status` holds the
`map_to_turtlebot_status` image of the raw code (see above). -/
structure StatusEntryMsg where
  status : Option TurtlebotStatus
  goal_id : Option GoalIdMsg
  deriving DecidableEq, Repr

/-- A navigation-status message: the key `status_list` may be missing. -/
structure StatusMsg where
  status_list : Option (List StatusEntryMsg)
  deriving DecidableEq, Repr

/-- Embeds `Robot._get_run_id` (robotinterface.py lines 266-273).  The `try`
body raises `KeyError` on a missing key, `IndexError` on an empty
`status_list`; both are caught and turned into `None`.  An absent
message (`status_msg` is `None`) raises `TypeError` when subscripted,
which the `except (KeyError, IndexError)` clause does not catch. -/
def get_run_id (status_msg : Option StatusMsg) : Except PyError (Option String) :=
  match status_msg with
  | none => .error .typeError
  | some m =>
    match m.status_list with
    | none => .ok none
    | some [] => .ok none
    | some (entry :: _) =>
      match entry.goal_id with
      | none => .ok none
      | some g =>
        match g.id with
        | none => .ok none
        | some raw => .ok (some (normalizeRunId raw))

/-- Embeds `Robot._navigation_status` (robotinterface.py lines 174-179).  No
`try/except`: an absent message raises `TypeError`, a missing key
`KeyError`, an empty list `IndexError`, all uncaught. -/
def navigation_status (message : Option StatusMsg) : Except PyError TurtlebotStatus :=
  match message with
  | none => .error .typeError
  | some m =>
    match m.status_list with
    | none => .error .keyError
    | some [] => .error .indexError
    | some (entry :: _) =>
      match entry.status with
      | none => .error .keyError
      | some st => .ok st

/-! ## The adapter state and its environment

`Robot.__init__` sets `current_task = None` and
`inspection_status = None`; these two fields are the mutable adapter
state touched by the task-scheduling path. -/

/-- The mutable fields of `Robot` used by the scheduling path
(`current_task` holds the Python string `"navigation"` or
`"inspection"`). -/
structure RobotState where
  current_task : Option String
  inspection_status : Option TurtlebotStatus
  deriving DecidableEq, Repr

/-- The asynchronous environment of one orchestration run, as observed
by the polling loops: `statusMsg t` is the latest cached
`mission_status` message at tick `t`, and `stored t` is the answer of
`self.bridge.visual_inspection.stored_image()` at tick `t` (an
existence check on the freshly armed storage path, see `ImageTopic`
below). -/
structure Env where
  statusMsg : Nat → Option StatusMsg
  stored : Nat → Bool

/-- The environment as seen by code whose `start_time` clock begins at
absolute tick `t0` (`time.time()` restarts the elapsed-time origin). -/
def shiftEnv (env : Env) (t0 : Nat) : Env :=
  { statusMsg := fun t => env.statusMsg (t0 + t)
    stored := fun t => env.stored (t0 + t) }

/-! ## Embedding of `Robot._do_inspection_task` (robotinterface.py lines 205-227)

One clock `start_time` is started before the navigation wait and is not
reset before the capture wait: both `while` loops compare
`time.time() - start_time` against the same `inspection_task_timeout`.
Each loop sleeps 0.1 s per iteration, then checks the deadline, then
re-polls; on expiry it sets `inspection_status = Failure` and raises a
`TimeoutError` whose message formats `self._get_run_id()` (a fresh read
of the status topic, which can itself raise).  The fuel argument of each
loop is the number of ticks remaining until the deadline check fires;
every call site passes `timeout + 1 - startTick`. -/

/-- The navigation-completion wait:
`while self._navigation_status() is not TurtlebotStatus.Succeeded`.
Returns the tick at which `Succeeded` was observed. -/
def navWaitLoop (env : Env) (timeout : Nat) :
    Nat → Nat → RobotState → (Except PyError Nat) × RobotState
  | 0, _, s =>
    (.error (.timeoutError (.driveTimeout none)),
      { s with inspection_status := some TurtlebotStatus.Failure })
  | fuel + 1, t, s =>
    match navigation_status (env.statusMsg t) with
    | .error e => (.error e, s)
    | .ok st =>
      if st = TurtlebotStatus.Succeeded then (.ok t, s)
      else if t + 1 > timeout then
        match get_run_id (env.statusMsg (t + 1)) with
        | .error e =>
          (.error e, { s with inspection_status := some TurtlebotStatus.Failure })
        | .ok run_id =>
          (.error (.timeoutError (.driveTimeout run_id)),
            { s with inspection_status := some TurtlebotStatus.Failure })
      else navWaitLoop env timeout fuel (t + 1) s

/-- The capture-completion wait:
`while not self.bridge.visual_inspection.stored_image()`, polled against
the same `start_time` clock as the navigation wait. -/
def captureWaitLoop (env : Env) (timeout : Nat) :
    Nat → Nat → RobotState → (Except PyError Nat) × RobotState
  | 0, _, s =>
    (.error (.timeoutError (.storeTimeout none)),
      { s with inspection_status := some TurtlebotStatus.Failure })
  | fuel + 1, t, s =>
    if env.stored t then (.ok t, s)
    else if t + 1 > timeout then
      match get_run_id (env.statusMsg (t + 1)) with
      | .error e =>
        (.error e, { s with inspection_status := some TurtlebotStatus.Failure })
      | .ok run_id =>
        (.error (.timeoutError (.storeTimeout run_id)),
          { s with inspection_status := some TurtlebotStatus.Failure })
    else captureWaitLoop env timeout fuel (t + 1) s

/-- Embeds `Robot._do_inspection_task`.  `inspection_task_timeout` is given in
ticks.  The navigation wait starts at tick 0; the capture wait starts at
the tick at which navigation succeeded, against the same deadline
(`self.bridge.visual_inspection.take_image()` between the two loops arms
the image channel and allocates a fresh storage path, which is why
`env.stored` is polled only from that tick on).  On success the task
sets `inspection_status = Succeeded` and clears `current_task`. -/
def do_inspection_task (env : Env) (inspection_task_timeout : Nat)
    (s : RobotState) : (Except PyError Unit) × RobotState :=
  match navWaitLoop env inspection_task_timeout (inspection_task_timeout + 1) 0 s with
  | (.error e, s1) => (.error e, s1)
  | (.ok t1, s1) =>
    match captureWaitLoop env inspection_task_timeout
        (inspection_task_timeout + 1 - t1) t1 s1 with
    | (.error e, s2) => (.error e, s2)
    | (.ok _, s2) =>
      (.ok (),
        { s2 with inspection_status := some TurtlebotStatus.Succeeded
                  current_task := none })

/-! ## Embedding of `Robot._wait_for_updated_task` (robotinterface.py lines 275-288)

Polls `self._get_run_id()` every 0.1 s until it differs from
`previous_run_id`; the default `timeout` is 20 (seconds), compared
against `0.1 * ticks`, i.e. the deadline in ticks is `10 * timeout`.
On expiry it raises `TimeoutError` carrying `current_run_id`, the last
identifier read.  The Lean value additionally returns the tick at which
the returned identifier was read, so that the caller can continue the
global clock (the source keeps that information implicitly in wall
time). -/

/-- The polling loop of `_wait_for_updated_task`; `deadline` is
`10 * timeout` ticks, `current` the identifier read at tick `t`. -/
def waitForUpdatedTaskLoop (env : Env) (previous_run_id : Option String)
    (deadline : Nat) :
    Nat → Nat → Option String → Except PyError (Option String × Nat)
  | 0, _, current =>
    .error (.timeoutError (.scheduling current))
  | fuel + 1, t, current =>
    if current = previous_run_id then
      if t + 1 > deadline then .error (.timeoutError (.scheduling current))
      else
        match get_run_id (env.statusMsg (t + 1)) with
        | .error e => .error e
        | .ok c => waitForUpdatedTaskLoop env previous_run_id deadline fuel (t + 1) c
    else .ok (current, t)

/-- Embeds `Robot._wait_for_updated_task` with its `timeout` parameter in
seconds (default 20). -/
def wait_for_updated_task (env : Env) (previous_run_id : Option String)
    (timeout : Nat) : Except PyError (Option String × Nat) :=
  match get_run_id (env.statusMsg 0) with
  | .error e => .error e
  | .ok current =>
    waitForUpdatedTaskLoop env previous_run_id (10 * timeout)
      (10 * timeout + 1) 0 current

/-! ## Embedding of `Robot._publish_task` (robotinterface.py lines 181-203) -/

/-- The task variants dispatched by `_publish_task`: `DriveToPose`,
`TakeImage`, `TakeThermalImage`, and any other `Task` subtype (which
hits the trailing `raise NotImplementedError`).  The pose / target
payloads feed only the published goal message and the external
`get_inspection_pose` helper, neither of which the scheduling logic
reads back, so they are omitted. -/
inductive Task where
  | driveToPose
  | takeImage
  | takeThermalImage
  | unsupported
  deriving DecidableEq, Repr

/-- Embeds `Robot._publish_inspection_task` (lines 228-236): set
`inspection_status = Active`, read the previous run identifier, compute
the inspection pose and publish it (external effects, not modelled),
then wait for the identifier to change with the default 20 s timeout.
Returns the new identifier and the tick at which it was observed. -/
def publish_inspection_task (env : Env) (s : RobotState) :
    (Except PyError (Option String × Nat)) × RobotState :=
  let s1 : RobotState := { s with inspection_status := some TurtlebotStatus.Active }
  match get_run_id (env.statusMsg 0) with
  | .error e => (.error e, s1)
  | .ok previous_run_id =>
    match wait_for_updated_task env previous_run_id 20 with
    | .error e => (.error e, s1)
    | .ok (run_id, t1) => (.ok (run_id, t1), s1)

/-- Embeds `Robot._publish_task`.  Only the call to `_do_inspection_task` is
wrapped in `try/except TimeoutError` (the handler logs and clears
`current_task`); the `_wait_for_updated_task` calls of both branches
sit outside every handler, so their `TimeoutError` propagates to the
caller.  `inspection_task_timeout` is in ticks (from configuration). -/
def publish_task (env : Env) (inspection_task_timeout : Nat)
    (s : RobotState) (task : Task) : (Except PyError (Option String)) × RobotState :=
  match task with
  | .driveToPose =>
    let s1 : RobotState := { s with current_task := some "navigation" }
    match get_run_id (env.statusMsg 0) with
    | .error e => (.error e, s1)
    | .ok previous_run_id =>
      match wait_for_updated_task env previous_run_id 20 with
      | .error e => (.error e, s1)
      | .ok (run_id, _) => (.ok run_id, s1)
  | .takeImage | .takeThermalImage =>
    let s1 : RobotState := { s with current_task := some "inspection" }
    match publish_inspection_task env s1 with
    | (.error e, s2) => (.error e, s2)
    | (.ok (run_id, t1), s2) =>
      match do_inspection_task (shiftEnv env t1) inspection_task_timeout s2 with
      | (.error (.timeoutError _), s3) => (.ok run_id, { s3 with current_task := none })
      | (.error e, s3) => (.error e, s3)
      | (.ok _, s3) => (.ok run_id, s3)
  | .unsupported => (.error .notImplementedError, s)

/-! ## Embedding of `Topic` (ros_bridge/topic.py lines 38-79)

A generic topic keeps only the latest delivered message in `self.value`
(initially `None`).  `publish` hands the message to the transport (an
external effect) and does not touch the cache; only the delivery
callback `on_message` writes it. -/

/-- The cached state of a generic `Topic`. -/
structure TopicValue (α : Type) where
  value : Option α
  deriving DecidableEq, Repr

/-- Embeds `Topic.__init__`: `self.value = None`. -/
def topicValueInit {α : Type} : TopicValue α := { value := none }

/-- Embeds `Topic.publish`: wraps the message and hands it to
`self.topic.publish` (transport effect, external); the cached state is
returned unchanged because the method body never assigns `self.value`. -/
def Topic.publish {α : Type} (s : TopicValue α) (_message : α) : TopicValue α := s

/-- Embeds `Topic.get_value`: `return self.value`. -/
def Topic.get_value {α : Type} (s : TopicValue α) : Option α := s.value

/-- Embeds `Topic.on_message`: `self.value = message`. -/
def Topic.on_message {α : Type} (s : TopicValue α) (message : α) : TopicValue α :=
  { s with value := some message }

/-! ## Base64 decoding (`base64.b64decode` on an ASCII payload)

`ImageTopic.on_image` runs `message["data"].encode("ascii")` (raises
`UnicodeEncodeError` on a non-ASCII character) and `base64.b64decode`
on the result.  The decoder below follows the default
`validate=False` behaviour: characters outside the alphabet and `=` are
discarded, the remaining length must be a multiple of four, and a
padded group must be final (non-final or malformed padding is a
`binascii.Error`; bytes are `Nat` values below 256). -/

/-- The value of a standard base64 alphabet character. -/
def b64val (c : Char) : Option Nat :=
  if 'A' ≤ c ∧ c ≤ 'Z' then some (c.toNat - 65)
  else if 'a' ≤ c ∧ c ≤ 'z' then some (c.toNat - 71)
  else if '0' ≤ c ∧ c ≤ '9' then some (c.toNat + 4)
  else if c = '+' then some 62
  else if c = '/' then some 63
  else none

/-- Decode a filtered base64 character stream four characters at a
time. -/
def b64groups : List Char → Except PyError (List Nat)
  | [] => .ok []
  | a :: b :: c :: d :: rest =>
    match b64val a, b64val b with
    | some va, some vb =>
      if c = '=' ∧ d = '=' then
        if rest = [] then .ok [va * 4 + vb / 16] else .error .binasciiError
      else if d = '=' then
        match b64val c with
        | some vc =>
          if rest = [] then .ok [va * 4 + vb / 16, (vb % 16) * 16 + vc / 4]
          else .error .binasciiError
        | none => .error .binasciiError
      else
        match b64val c, b64val d with
        | some vc, some vd =>
          match b64groups rest with
          | .ok tail =>
            .ok ((va * 4 + vb / 16) :: ((vb % 16) * 16 + vc / 4) ::
              ((vc % 4) * 64 + vd) :: tail)
          | .error e => .error e
        | _, _ => .error .binasciiError
    | _, _ => .error .binasciiError
  | _ => .error .binasciiError

/-- Embeds `base64.b64decode(data.encode("ascii"))` on the `data` field of an
image message. -/
def b64decode (data : List Char) : Except PyError (List Nat) :=
  if data.all (fun c => c.toNat < 128) then
    b64groups (data.filter (fun c => (b64val c).isSome || c = '='))
  else .error .unicodeEncodeError

/-! ## Embedding of `ImageTopic` (ros_bridge/topic.py lines 82-153)

The capture channel owns an armed flag `should_capture_image`
(initially `False`), the `current_filename` slot (initially `None`),
and the `filenames` dict mapping registered run identifiers to storage
paths.  The file system is modelled as an association list from paths
to byte lists carried in the same state record (`fs`); writing a file
prepends an entry, `Path.is_file` and `open(..., "rb")` are lookups.
`take_image` draws a fresh `uuid4` filename; freshness is expressed by
passing the generated path as an argument. -/

/-- An image message: the `data` field holds the base64 text. -/
structure ImageMessage where
  data : String
  deriving DecidableEq, Repr

/-- The state of one `ImageTopic` plus the storage directory contents. -/
structure CaptureState where
  filenames : List (String × Option String)
  current_filename : Option String
  should_capture_image : Bool
  fs : List (String × List Nat)
  deriving DecidableEq, Repr

/-- Embeds `ImageTopic.__init__` over an arbitrary pre-existing file system:
empty `filenames` dict, no current filename, disarmed. -/
def imageTopicStart (fs0 : List (String × List Nat)) : CaptureState :=
  { filenames := [], current_filename := none
    should_capture_image := false, fs := fs0 }

/-- Embeds `ImageTopic.take_image` (lines 134-139): arm the channel and point
`current_filename` at a freshly generated storage path (the
`mkdir(exist_ok=True)` call touches only the directory). -/
def take_image (s : CaptureState) (fresh_path : String) : CaptureState :=
  { s with should_capture_image := true, current_filename := some fresh_path }

/-- Embeds `ImageTopic.on_image` (lines 119-129): always base64-decode the
payload; if armed, write the bytes to `current_filename` and disarm
(writing through a `None` filename would raise `TypeError`); if not
armed, drop the payload. -/
def on_image (s : CaptureState) (message : ImageMessage) :
    Except PyError CaptureState :=
  match b64decode message.data.data with
  | .error e => .error e
  | .ok image_bytes =>
    if s.should_capture_image then
      match s.current_filename with
      | none => .error .typeError
      | some p =>
        .ok { s with fs := (p, image_bytes) :: s.fs
                     should_capture_image := false }
    else .ok s

/-- Embeds `ImageTopic.stored_image` (lines 131-132):
`return self.current_filename.is_file()`.  When no `take_image` has run
yet, `current_filename` is `None` and the attribute access raises
`AttributeError`. -/
def stored_image (s : CaptureState) : Except PyError Bool :=
  match s.current_filename with
  | none => .error .attributeError
  | some p => .ok (List.lookup p s.fs).isSome

/-- Embeds `ImageTopic.register_run_id` (lines 141-143):
`if not self.should_capture_image: self.filenames[run_id] = self.current_filename`.
The mapping is recorded only while the channel is *not* armed. -/
def register_run_id (s : CaptureState) (run_id : String) : CaptureState :=
  if !s.should_capture_image then
    { s with filenames := (run_id, s.current_filename) :: s.filenames }
  else s

/-- Embeds `ImageTopic.read_image` (lines 145-150): `self.filenames[run_id]`
raises `KeyError` on an unmapped identifier; `open(None, "rb")` raises
`TypeError` when the stored path is `None`; a mapped path that is not a
file raises `FileNotFoundError`. -/
def read_image (s : CaptureState) (run_id : String) : Except PyError (List Nat) :=
  match List.lookup run_id s.filenames with
  | none => .error .keyError
  | some none => .error .typeError
  | some (some filename) =>
    match List.lookup filename s.fs with
    | none => .error .fileNotFoundError
    | some image_data => .ok image_data

/-! ## Embedding of `Robot.download_inspection_result` (robotinterface.py lines 106-140)

Both branches wrap `read_image` in a handler that is supposed to log
and fall back to `None`, but the handler's first statement is
`self.logger("Failed to retreive inspection result", e)`: `self.logger`
is a `logging.Logger` instance, which is not callable, so the handler
itself raises `TypeError` and the fallback assignment is never
reached.  The thermal branch feeds the bytes through a PIL pipeline
(open, take the red channel, re-encode), modelled as an external
function argument; any exception there is caught by the same broken
handler. -/

/-- The `Inspection` reference variants handled by
`download_inspection_result` (metadata is passed through untouched and
omitted). -/
inductive InspectionRef where
  | imageRef (id : String)
  | thermalImageRef (id : String)
  deriving DecidableEq, Repr

/-- The `InspectionResult` payloads built by
`download_inspection_result`. -/
inductive InspResult where
  | image (id : String) (data : List Nat)
  | thermalImage (id : String) (data : List Nat)
  deriving DecidableEq, Repr

/-- Embeds `Robot.download_inspection_result`.  `thermalPipeline` is the
external PIL red-channel extraction and re-encoding applied in the
thermal branch. -/
def download_inspection_result
    (thermalPipeline : List Nat → Except PyError (List Nat))
    (s : CaptureState) (inspection : InspectionRef) :
    Except PyError (Option InspResult) :=
  match inspection with
  | .imageRef id =>
    match read_image s id with
    | .ok image_data => .ok (some (.image id image_data))
    | .error .keyError => .error .typeError
    | .error .typeError => .error .typeError
    | .error .fileNotFoundError => .error .typeError
    | .error e => .error e
  | .thermalImageRef id =>
    match (read_image s id).bind thermalPipeline with
    | .ok out => .ok (some (.thermalImage id out))
    | .error _ => .error .typeError

/-! ## Concrete example data used by witnesses and counterexamples -/

/-- A well-formed status message whose navigation status is `Active`
and whose raw goal identifier normalizes to `"a"`. -/
def msgActiveA : StatusMsg :=
  { status_list := some [{ status := some TurtlebotStatus.Active
                           goal_id := some { id := some "a.0" } }] }

/-- Like `msgActiveA` with goal identifier normalizing to `"b"`. -/
def msgActiveB : StatusMsg :=
  { status_list := some [{ status := some TurtlebotStatus.Active
                           goal_id := some { id := some "b.0" } }] }

/-- A well-formed status message whose navigation status is
`Succeeded`. -/
def msgSucceededA : StatusMsg :=
  { status_list := some [{ status := some TurtlebotStatus.Succeeded
                           goal_id := some { id := some "a.0" } }] }

/-- An environment whose status topic never changes (`Active`, run
identifier `"a"`) and whose image is never stored. -/
def envConstA : Env := { statusMsg := fun _ => some msgActiveA, stored := fun _ => false }

/-- An environment whose run identifier changes from `"a"` to `"b"` at
tick 1 and stays `Active`; the image is never stored. -/
def envChangeAB : Env :=
  { statusMsg := fun t => if t = 0 then some msgActiveA else some msgActiveB
    stored := fun _ => false }

/-- An environment whose navigation status is always `Succeeded` but
whose image is never stored. -/
def envSucceededA : Env :=
  { statusMsg := fun _ => some msgSucceededA, stored := fun _ => false }

/-- The run identifier read from `envChangeAB` at each tick. -/
def runIdChangeAB (t : Nat) : Option String :=
  if t = 0 then some "a" else some "b"

/-- A hexadecimal digit, as used in the `<hex>` portion of a raw
`move_base` goal identifier. -/
def isHexChar (c : Char) : Bool :=
  c.isDigit || ('a' ≤ c && c ≤ 'f') || ('A' ≤ c && c ≤ 'F')

/-! # Theorems -/

/-- C9: calling `stored_image` on an `ImageTopic` before any
`take_image` call has armed it dereferences the unset
`current_filename` (initially `None`) and fails with `AttributeError`
rather than returning `False`; a prior arm is an unstated precondition
of the is-stored query. -/
theorem C9_stored_image_before_arm (fs0 : List (String × List Nat)) :
    stored_image (imageTopicStart fs0) = .error .attributeError := rfl

/-- C10: for every `Topic`, `publish` leaves the cached latest value
unchanged (only the delivery callback `on_message` mutates it), and
`get_value` returns `none` until the first message is delivered,
thereafter the most recently delivered message. -/
theorem C10_topic_latest_value_cache (α : Type) (s : TopicValue α) (m : α)
    (msgs : List α) :
    Topic.get_value (Topic.publish s m) = Topic.get_value s
    ∧ Topic.get_value (topicValueInit : TopicValue α) = none
    ∧ Topic.get_value (List.foldl Topic.on_message topicValueInit (msgs ++ [m])) =
        some m := by
  refine ⟨rfl, rfl, ?_⟩
  simp [List.foldl_append, Topic.on_message, Topic.get_value]

/-- C2, counterexample: `register_run_id` behaves opposite to the
claim.  Called on a channel that has already disarmed (the image
arrived), it *does* record the association (first conjunct); called on
a channel that is still armed, it records nothing (second conjunct). -/
theorem C2_counterexample :
    (register_run_id
        { filenames := [], current_filename := some "p"
          should_capture_image := false, fs := [("p", [1])] }
        "id").filenames.lookup "id" = some (some "p")
    ∧ (register_run_id
        { filenames := [], current_filename := some "p"
          should_capture_image := true, fs := [] }
        "id").filenames.lookup "id" = none := ⟨rfl, rfl⟩

/-- C2, amended: `register_run_id` associates the given run identifier
with the current storage path only if the channel is *not* armed
(`should_capture_image` is false, i.e. the image has already arrived or
no capture is pending); calling it while the channel is still armed
records nothing, so a subsequent lookup for that id finds no mapping
from this call. -/
theorem C2_register_run_id_only_disarmed (s : CaptureState) (run_id : String) :
    (s.should_capture_image = false →
      register_run_id s run_id =
        { s with filenames := (run_id, s.current_filename) :: s.filenames })
    ∧ (s.should_capture_image = true → register_run_id s run_id = s) := by
  constructor <;> intro h <;> simp [register_run_id, h]

/-- Witness for `C2_register_run_id_only_disarmed` at a concrete
disarmed channel. -/
theorem C2_register_run_id_only_disarmed_witness :
    register_run_id
        { filenames := [], current_filename := some "q"
          should_capture_image := false, fs := [] }
        "rid" =
      { filenames := [("rid", some "q")], current_filename := some "q"
        should_capture_image := false, fs := [] } :=
  (C2_register_run_id_only_disarmed
    { filenames := [], current_filename := some "q"
      should_capture_image := false, fs := [] } "rid").1 rfl

/-- C6: at a failing input (an image reference whose run identifier was
never registered), `download_inspection_result` does not return an
absent result: the `except` handler's call
`self.logger("Failed to retreive inspection result", e)` invokes a
non-callable `Logger` object, so the handler itself raises `TypeError`
instead of swallowing the failure, for the plain and the thermal branch
alike. -/
theorem C6_retrieval_failure_raises :
    download_inspection_result (fun b => .ok b) (imageTopicStart [])
        (.imageRef "x") = .error .typeError
    ∧ download_inspection_result (fun b => .ok b) (imageTopicStart [])
        (.thermalImageRef "x") = .error .typeError := ⟨rfl, rfl⟩

/-- C7, counterexample: when the latest navigation-status message is
absent (`None`, before any message has arrived), `_get_run_id` does not
return `None`: subscripting `None` raises `TypeError`, which the
`except (KeyError, IndexError)` clause does not catch, so the call
fails. -/
theorem C7_counterexample :
    get_run_id (none : Option StatusMsg) = .error .typeError := rfl

/-- C7, amended: `_get_run_id` returns `None` whenever the latest
navigation-status message is present but malformed — a missing
`status_list` key, an empty status list, a missing `goal_id` key, or a
missing `id` key — logging but never failing the call; an absent
message, however, raises an uncaught `TypeError`. -/
theorem C7_get_run_id_malformed (m : StatusMsg) :
    (m.status_list = none → get_run_id (some m) = .ok none)
    ∧ (m.status_list = some [] → get_run_id (some m) = .ok none)
    ∧ (∀ entry rest, m.status_list = some (entry :: rest) →
        entry.goal_id = none → get_run_id (some m) = .ok none)
    ∧ (∀ entry rest g, m.status_list = some (entry :: rest) →
        entry.goal_id = some g → g.id = none → get_run_id (some m) = .ok none) := by
  refine ⟨fun h => ?_, fun h => ?_, fun entry rest h hg => ?_,
    fun entry rest g h hg hid => ?_⟩
  · simp [get_run_id, h]
  · simp [get_run_id, h]
  · simp [get_run_id, h, hg]
  · simp [get_run_id, h, hg, hid]

/-- Witness for `C7_get_run_id_malformed` at a message with an empty
status list. -/
theorem C7_get_run_id_malformed_witness :
    get_run_id (some { status_list := some ([] : List StatusEntryMsg) }) = .ok none :=
  (C7_get_run_id_malformed { status_list := some [] }).2.1 rfl

/-- C8: if `take_image` is called twice in succession before any
payload arrives, the first allocated storage slot is discarded: the
next payload delivered while armed is base64-decoded and written to the
second slot's storage path only, after which the channel disarms; the
file-system entry of the first path is exactly what it was before. -/
theorem C8_double_arm_discards_first_slot (s : CaptureState)
    (p1 p2 : String) (message : ImageMessage) (bytes : List Nat)
    (hdec : b64decode message.data.data = .ok bytes) (hne : p1 ≠ p2) :
    on_image (take_image (take_image s p1) p2) message =
      .ok { filenames := s.filenames, current_filename := some p2
            should_capture_image := false, fs := (p2, bytes) :: s.fs }
    ∧ List.lookup p1 ((p2, bytes) :: s.fs) = List.lookup p1 s.fs := by
  constructor
  · simp [on_image, take_image, hdec]
  · have hb : (p1 == p2) = false := beq_eq_false_iff_ne.mpr hne
    simp [List.lookup, hb]

/-- Witness for `C8_double_arm_discards_first_slot` on an initial
channel, two distinct fresh paths and the payload `"QUJD"`
(base64 of the bytes 65 66 67). -/
theorem C8_double_arm_discards_first_slot_witness :
    on_image (take_image (take_image (imageTopicStart []) "p1") "p2")
        { data := "QUJD" } =
      .ok { filenames := [], current_filename := some "p2"
            should_capture_image := false, fs := [("p2", [65, 66, 67])] }
    ∧ List.lookup "p1" [("p2", [65, 66, 67])] =
        List.lookup "p1" ([] : List (String × List Nat)) :=
  C8_double_arm_discards_first_slot (imageTopicStart []) "p1" "p2"
    { data := "QUJD" } [65, 66, 67] rfl (by decide)

/-! ### Auxiliary lemmas about the embedded Python string operations -/

/-- A scan of `pyReplaceAux` whose pattern starts with a character that
occurs nowhere in the string replaces nothing. -/
theorem pyReplaceAux_no_head (a : Char) (tl new : List Char) :
    ∀ fuel s, List.length s ≤ fuel → (∀ c ∈ s, c ≠ a) →
      pyReplaceAux (a :: tl) new fuel s = s := by
  intro fuel
  induction fuel with
  | zero =>
    intro s hlen _
    have hnil : s = [] := List.eq_nil_of_length_eq_zero (Nat.le_zero.mp hlen)
    subst hnil; rfl
  | succ f ih =>
    intro s hlen hs
    cases s with
    | nil => rfl
    | cons c cs =>
      have hac : (a == c) = false :=
        beq_eq_false_iff_ne.mpr (Ne.symm (hs c (List.mem_cons_self c cs)))
      have hcs : cs.length ≤ f := by
        simp only [List.length_cons] at hlen; omega
      have hrec := ih cs hcs (fun x hx => hs x (List.mem_cons_of_mem c hx))
      simp [pyReplaceAux, List.isPrefixOf, hac, hrec]

/-- Running `pyReplaceAux` on a string that starts with the pattern consumes
the pattern and emits the replacement. -/
theorem pyReplaceAux_strip (old new rest : List Char) (fuel : Nat)
    (hold : old ≠ []) (hf : (old ++ rest).length ≤ fuel) :
    pyReplaceAux old new fuel (old ++ rest) =
      new ++ pyReplaceAux old new (fuel - 1) rest := by
  cases old with
  | nil => exact absurd rfl hold
  | cons o os =>
    cases fuel with
    | zero =>
      exfalso
      simp only [List.length_append, List.length_cons] at hf
      omega
    | succ f =>
      have hpre : (o :: os).isPrefixOf (o :: (os ++ rest)) = true := by
        rw [← List.cons_append]
        simp [ List.isPrefixOf_iff_prefix]
      have hdrop : List.drop (o :: os).length (o :: (os ++ rest)) = rest := by
        rw [← List.cons_append]
        exact List.drop_left (o :: os) rest
      simp only [List.cons_append, pyReplaceAux, List.append_eq]
      simp [hpre, hdrop]

/-- Replacing a single character by the empty string is `filter`. -/
theorem pyReplaceAux_single_filter (c0 : Char) :
    ∀ fuel s, List.length s ≤ fuel →
      pyReplaceAux [c0] [] fuel s = s.filter (fun c => c != c0) := by
  intro fuel
  induction fuel with
  | zero =>
    intro s hlen
    have hnil : s = [] := List.eq_nil_of_length_eq_zero (Nat.le_zero.mp hlen)
    subst hnil; rfl
  | succ f ih =>
    intro s hlen
    cases s with
    | nil => rfl
    | cons c cs =>
      have hcs : cs.length ≤ f := by
        simp only [List.length_cons] at hlen; omega
      by_cases hc : c0 = c
      · subst hc
        simp [pyReplaceAux, List.isPrefixOf, List.filter, ih cs hcs]
      · have hbc : (c0 == c) = false := beq_eq_false_iff_ne.mpr hc
        have hcb : (c != c0) = true := by
          simp [bne, BEq.beq]
          exact fun he => hc he.symm
        simp [pyReplaceAux, List.isPrefixOf, hbc, List.filter, hcb, ih cs hcs]

/-- The function `pySplit` cuts the first segment at the first separator. -/
theorem pySplit_first_segment (sep : Char) (d : List Char) :
    ∀ h, (∀ c ∈ h, c ≠ sep) →
      pySplit sep (h ++ sep :: d) = h :: pySplit sep d := by
  intro h
  induction h with
  | nil =>
    intro _
    simp [pySplit]
  | cons c h' ih =>
    intro hs
    have hc : ¬(c = sep) := hs c (List.mem_cons_self c h')
    have hrec := ih (fun x hx => hs x (List.mem_cons_of_mem c hx))
    simp [pySplit, hc, hrec]

/-- C4: for every raw goal-identifier string of the form
`"move_base-<hex>.<digits>"` (with `<hex>` drawn from hexadecimal
digits and `'-'`, `<digits>` from decimal digits), the normalization of
`Robot._get_run_id` — strip the literal `"move_base-"`, split at the
first `'.'` keeping the left portion, remove all `'-'` characters —
yields exactly `<hex>` with `'-'` removed, independent of the
fractional suffix. -/
theorem C4_run_id_normalization (hx d : List Char)
    (hh : ∀ c ∈ hx, isHexChar c = true ∨ c = '-')
    (hd : ∀ c ∈ d, c.isDigit = true) :
    normalizeRunId (String.mk ("move_base-".data ++ (hx ++ '.' :: d))) =
      String.mk (hx.filter (fun c => c != '-')) := by
  have hm : ∀ c ∈ hx ++ '.' :: d, c ≠ 'm' := by
    intro c hc
    rcases List.mem_append.mp hc with hch | hcd
    · rcases hh c hch with hxc | hxc
      · intro he; subst he; exact absurd hxc (by decide)
      · subst hxc; decide
    · rcases List.mem_cons.mp hcd with rfl | hcd'
      · decide
      · have hdc := hd c hcd'
        intro he; subst he; exact absurd hdc (by decide)
  have hdot : ∀ c ∈ hx, c ≠ '.' := by
    intro c hc
    rcases hh c hc with hxc | hxc
    · intro he; subst he; exact absurd hxc (by decide)
    · subst hxc; decide
  have hstep1 : pyReplace "move_base-".data []
      ("move_base-".data ++ (hx ++ '.' :: d)) = hx ++ '.' :: d := by
    rw [pyReplace,
      pyReplaceAux_strip "move_base-".data [] (hx ++ '.' :: d) _
        (by decide) (le_refl _)]
    have hmb : "move_base-".data = 'm' :: "ove_base-".data := rfl
    have hlen : (hx ++ '.' :: d).length ≤
        ("move_base-".data ++ (hx ++ '.' :: d)).length - 1 := by
      simp only [List.length_append, List.length_cons, List.length_nil]
      omega
    rw [hmb, pyReplaceAux_no_head 'm' "ove_base-".data [] _ _ hlen hm]
    rfl
  show String.mk (pyReplace ['-'] []
      ((pySplit '.' (pyReplace "move_base-".data []
        (String.mk ("move_base-".data ++ (hx ++ '.' :: d))).data)).headD [])) = _
  rw [show (String.mk ("move_base-".data ++ (hx ++ '.' :: d))).data =
      "move_base-".data ++ (hx ++ '.' :: d) from rfl]
  rw [hstep1, pySplit_first_segment '.' d hx hdot]
  rw [show (hx :: pySplit '.' d).headD [] = hx from rfl]
  rw [pyReplace, pyReplaceAux_single_filter '-' hx.length hx (le_refl _)]

/-- Witness for `C4_run_id_normalization` on
`"move_base-ab-1.0" ↦ "ab1"`. -/
theorem C4_run_id_normalization_witness :
    normalizeRunId (String.mk ("move_base-".data ++ (['a', 'b', '-', '1'] ++ '.' :: ['0']))) =
      String.mk (['a', 'b', '-', '1'].filter (fun c => c != '-')) :=
  C4_run_id_normalization ['a', 'b', '-', '1'] ['0'] (by decide) (by decide)

/-! ### Auxiliary lemmas about the polling loops -/

/-- If the run identifier equals `previous` at every tick up to the
deadline, the dispatch-acknowledgement loop raises `TimeoutError`
carrying the last identifier read (which equals `previous`). -/
theorem waitLoop_timeout (env : Env) (previous : Option String) (deadline : Nat)
    (r : Nat → Option String)
    (hr : ∀ t, get_run_id (env.statusMsg t) = .ok (r t)) :
    ∀ fuel t, fuel + t = deadline + 1 → t ≤ deadline →
      (∀ u, t ≤ u → u ≤ deadline → r u = previous) →
      waitForUpdatedTaskLoop env previous deadline fuel t (r t) =
        .error (.timeoutError (.scheduling previous)) := by
  intro fuel
  induction fuel with
  | zero => intro t h1 h2 _; omega
  | succ f ih =>
    intro t h1 h2 hall
    have hcur : r t = previous := hall t (le_refl t) h2
    simp only [waitForUpdatedTaskLoop]
    rw [if_pos hcur]
    by_cases hdl : t + 1 > deadline
    · rw [if_pos hdl, hcur]
    · rw [if_neg hdl]
      have hrec := ih (t + 1) (by omega) (by omega)
        (fun u hu1 hu2 => hall u (by omega) hu2)
      simp only [hr (t + 1)]
      exact hrec

/-- If the run identifier first differs from `previous` at tick `t0`
within the deadline, the loop returns that identifier and tick. -/
theorem waitLoop_change (env : Env) (previous : Option String) (deadline : Nat)
    (r : Nat → Option String)
    (hr : ∀ t, get_run_id (env.statusMsg t) = .ok (r t)) :
    ∀ fuel t t0, fuel + t = deadline + 1 → t ≤ t0 → t0 ≤ deadline →
      (∀ u, t ≤ u → u < t0 → r u = previous) → r t0 ≠ previous →
      waitForUpdatedTaskLoop env previous deadline fuel t (r t) = .ok (r t0, t0) := by
  intro fuel
  induction fuel with
  | zero => intro t t0 h1 h2 h3 _ _; omega
  | succ f ih =>
    intro t t0 h1 h2 h3 hbefore hdiff
    simp only [waitForUpdatedTaskLoop]
    by_cases ht : t = t0
    · subst ht
      rw [if_neg hdiff]
    · have hcur : r t = previous := hbefore t (le_refl t) (by omega)
      rw [if_pos hcur]
      have hdl : ¬(t + 1 > deadline) := by omega
      rw [if_neg hdl]
      have hrec := ih (t + 1) t0 (by omega) (by omega) h3
        (fun u hu1 hu2 => hbefore u (by omega) hu2) hdiff
      simp only [hr (t + 1)]
      exact hrec

/-- The embedded `_wait_for_updated_task` times out when the identifier never
changes within `10 * timeout` ticks. -/
theorem wait_for_updated_task_timeout (env : Env) (previous : Option String)
    (timeout : Nat) (r : Nat → Option String)
    (hr : ∀ t, get_run_id (env.statusMsg t) = .ok (r t))
    (hall : ∀ u, u ≤ 10 * timeout → r u = previous) :
    wait_for_updated_task env previous timeout =
      .error (.timeoutError (.scheduling previous)) := by
  unfold wait_for_updated_task
  simp only [hr 0]
  exact waitLoop_timeout env previous (10 * timeout) r hr (10 * timeout + 1) 0
    (by omega) (by omega) (fun u _ hu2 => hall u hu2)

/-- The embedded `_wait_for_updated_task` returns the first identifier differing
from `previous`, read at tick `t0 ≤ 10 * timeout`. -/
theorem wait_for_updated_task_change (env : Env) (previous : Option String)
    (timeout : Nat) (r : Nat → Option String)
    (hr : ∀ t, get_run_id (env.statusMsg t) = .ok (r t))
    (t0 : Nat) (h1 : t0 ≤ 10 * timeout)
    (hbefore : ∀ u, u < t0 → r u = previous) (hdiff : r t0 ≠ previous) :
    wait_for_updated_task env previous timeout = .ok (r t0, t0) := by
  unfold wait_for_updated_task
  simp only [hr 0]
  exact waitLoop_change env previous (10 * timeout) r hr (10 * timeout + 1) 0 t0
    (by omega) (by omega) h1 (fun u _ hu2 => hbefore u hu2) hdiff

/-- The navigation wait of `_do_inspection_task` times out (setting
`inspection_status = Failure`) when the status never reads `Succeeded`
up to the deadline. -/
theorem navWaitLoop_timeout (env : Env) (τ : Nat)
    (ns : Nat → TurtlebotStatus) (r : Nat → Option String)
    (hns : ∀ t, navigation_status (env.statusMsg t) = .ok (ns t))
    (hr : ∀ t, get_run_id (env.statusMsg t) = .ok (r t)) :
    ∀ fuel t s, fuel + t = τ + 1 → t ≤ τ →
      (∀ u, t ≤ u → u ≤ τ → ns u ≠ TurtlebotStatus.Succeeded) →
      navWaitLoop env τ fuel t s =
        (.error (.timeoutError (.driveTimeout (r (τ + 1)))),
          { s with inspection_status := some TurtlebotStatus.Failure }) := by
  intro fuel
  induction fuel with
  | zero => intro t s h1 h2 _; omega
  | succ f ih =>
    intro t s h1 h2 hall
    have hne : ¬(ns t = TurtlebotStatus.Succeeded) := hall t (le_refl t) h2
    simp only [navWaitLoop, hns t]
    rw [if_neg hne]
    by_cases hdl : t + 1 > τ
    · have ht : t = τ := by omega
      subst ht
      rw [if_pos hdl]
      simp only [hr (t + 1)]
    · rw [if_neg hdl]
      exact ih (t + 1) s (by omega) (by omega) (fun u hu1 hu2 => hall u (by omega) hu2)

/-- The navigation wait returns the first tick `t1 ≤ τ` at which the
status reads `Succeeded`, leaving the state untouched. -/
theorem navWaitLoop_success (env : Env) (τ : Nat) (ns : Nat → TurtlebotStatus)
    (hns : ∀ t, navigation_status (env.statusMsg t) = .ok (ns t)) :
    ∀ fuel t t1 s, fuel + t = τ + 1 → t ≤ t1 → t1 ≤ τ →
      ns t1 = TurtlebotStatus.Succeeded →
      (∀ u, t ≤ u → u < t1 → ns u ≠ TurtlebotStatus.Succeeded) →
      navWaitLoop env τ fuel t s = (.ok t1, s) := by
  intro fuel
  induction fuel with
  | zero => intro t t1 s h1 h2 h3 _ _; omega
  | succ f ih =>
    intro t t1 s h1 h2 h3 hsucc hbefore
    simp only [navWaitLoop, hns t]
    by_cases ht : t = t1
    · subst ht
      rw [if_pos hsucc]
    · have hne : ¬(ns t = TurtlebotStatus.Succeeded) :=
        hbefore t (le_refl t) (by omega)
      rw [if_neg hne]
      have hdl : ¬(t + 1 > τ) := by omega
      rw [if_neg hdl]
      exact ih (t + 1) t1 s (by omega) (by omega) h3 hsucc
        (fun u hu1 hu2 => hbefore u (by omega) hu2)

/-- The capture wait of `_do_inspection_task` times out against the
*same* deadline `τ` (not a fresh budget) when the image is never stored
from its start tick up to `τ`. -/
theorem captureWaitLoop_timeout (env : Env) (τ : Nat) (r : Nat → Option String)
    (hr : ∀ t, get_run_id (env.statusMsg t) = .ok (r t)) :
    ∀ fuel t s, fuel + t = τ + 1 → t ≤ τ →
      (∀ u, t ≤ u → u ≤ τ → env.stored u = false) →
      captureWaitLoop env τ fuel t s =
        (.error (.timeoutError (.storeTimeout (r (τ + 1)))),
          { s with inspection_status := some TurtlebotStatus.Failure }) := by
  intro fuel
  induction fuel with
  | zero => intro t s h1 h2 _; omega
  | succ f ih =>
    intro t s h1 h2 hall
    have hst : env.stored t = false := hall t (le_refl t) h2
    simp only [captureWaitLoop, hst, Bool.false_eq_true, if_false]
    by_cases hdl : t + 1 > τ
    · have ht : t = τ := by omega
      subst ht
      rw [if_pos hdl]
      simp only [hr (t + 1)]
    · rw [if_neg hdl]
      exact ih (t + 1) s (by omega) (by omega) (fun u hu1 hu2 => hall u (by omega) hu2)

/-- The embedded `_do_inspection_task` fails in the navigation phase when the status
never reaches `Succeeded` before the deadline. -/
theorem do_inspection_task_nav_timeout (env : Env) (τ : Nat) (s : RobotState)
    (ns : Nat → TurtlebotStatus) (r : Nat → Option String)
    (hns : ∀ t, navigation_status (env.statusMsg t) = .ok (ns t))
    (hr : ∀ t, get_run_id (env.statusMsg t) = .ok (r t))
    (hall : ∀ u, u ≤ τ → ns u ≠ TurtlebotStatus.Succeeded) :
    do_inspection_task env τ s =
      (.error (.timeoutError (.driveTimeout (r (τ + 1)))),
        { s with inspection_status := some TurtlebotStatus.Failure }) := by
  unfold do_inspection_task
  simp only [navWaitLoop_timeout env τ ns r hns hr (τ + 1) 0 s (by omega) (by omega)
    (fun u _ hu2 => hall u hu2)]

/-- The embedded `_do_inspection_task` fails in the capture phase, against the
already partly consumed shared deadline, when navigation first
succeeds at tick `t1 ≤ τ` but the image is never stored from `t1` up
to the same deadline `τ`. -/
theorem do_inspection_task_capture_timeout (env : Env) (τ : Nat) (s : RobotState)
    (ns : Nat → TurtlebotStatus) (r : Nat → Option String)
    (hns : ∀ t, navigation_status (env.statusMsg t) = .ok (ns t))
    (hr : ∀ t, get_run_id (env.statusMsg t) = .ok (r t))
    (t1 : Nat) (h1 : t1 ≤ τ) (hsucc : ns t1 = TurtlebotStatus.Succeeded)
    (hbefore : ∀ u, u < t1 → ns u ≠ TurtlebotStatus.Succeeded)
    (hstored : ∀ u, t1 ≤ u → u ≤ τ → env.stored u = false) :
    do_inspection_task env τ s =
      (.error (.timeoutError (.storeTimeout (r (τ + 1)))),
        { s with inspection_status := some TurtlebotStatus.Failure }) := by
  unfold do_inspection_task
  simp only [navWaitLoop_success env τ ns hns (τ + 1) 0 t1 s (by omega) (by omega)
    h1 hsucc (fun u _ hu2 => hbefore u hu2)]
  simp only [captureWaitLoop_timeout env τ r hr (τ + 1 - t1) t1 s (by omega) h1 hstored]

/-- C1: in `_do_inspection_task`, the navigation-completion wait and
the capture-completion wait share one cumulative deadline measured from
a single start clock: the run fails with a navigation-phase timeout
(setting `inspection_status = Failure`) if the navigation status never
reads `Succeeded` up to the shared deadline `τ`, and fails with a
capture-phase timeout (again setting `Failure`) if navigation first
succeeds at tick `t1 ≤ τ` but the image is not stored before the same,
already partly consumed deadline — the capture hypothesis only
covers ticks `t1..τ`, not a fresh `τ`-long budget, because the clock is
not reset between the two phases. -/
theorem C1_inspection_shared_deadline (env : Env) (τ : Nat) (s : RobotState)
    (ns : Nat → TurtlebotStatus) (r : Nat → Option String)
    (hns : ∀ t, navigation_status (env.statusMsg t) = .ok (ns t))
    (hr : ∀ t, get_run_id (env.statusMsg t) = .ok (r t)) :
    ((∀ u, u ≤ τ → ns u ≠ TurtlebotStatus.Succeeded) →
      do_inspection_task env τ s =
        (.error (.timeoutError (.driveTimeout (r (τ + 1)))),
          { s with inspection_status := some TurtlebotStatus.Failure }))
    ∧ (∀ t1, t1 ≤ τ → ns t1 = TurtlebotStatus.Succeeded →
        (∀ u, u < t1 → ns u ≠ TurtlebotStatus.Succeeded) →
        (∀ u, t1 ≤ u → u ≤ τ → env.stored u = false) →
      do_inspection_task env τ s =
        (.error (.timeoutError (.storeTimeout (r (τ + 1)))),
          { s with inspection_status := some TurtlebotStatus.Failure })) :=
  ⟨fun hall => do_inspection_task_nav_timeout env τ s ns r hns hr hall,
   fun t1 h1 hsucc hbefore hstored =>
    do_inspection_task_capture_timeout env τ s ns r hns hr t1 h1 hsucc hbefore hstored⟩

/-- Witness for `C1_inspection_shared_deadline`: with deadline 1 tick,
a status stuck at `Active` yields the navigation-phase timeout, and a
status already `Succeeded` with no image ever stored yields the
capture-phase timeout; both set `inspection_status = Failure`. -/
theorem C1_inspection_shared_deadline_witness :
    do_inspection_task envConstA 1
        { current_task := some "inspection"
          inspection_status := some TurtlebotStatus.Active } =
      (.error (.timeoutError (.driveTimeout (some "a"))),
        { current_task := some "inspection"
          inspection_status := some TurtlebotStatus.Failure })
    ∧ do_inspection_task envSucceededA 1
        { current_task := some "inspection"
          inspection_status := some TurtlebotStatus.Active } =
      (.error (.timeoutError (.storeTimeout (some "a"))),
        { current_task := some "inspection"
          inspection_status := some TurtlebotStatus.Failure }) := by
  constructor
  · exact (C1_inspection_shared_deadline envConstA 1
      { current_task := some "inspection", inspection_status := some TurtlebotStatus.Active }
      (fun _ => TurtlebotStatus.Active) (fun _ => some "a")
      (fun t => rfl) (fun t => rfl)).1 (fun u _ => by decide)
  · exact (C1_inspection_shared_deadline envSucceededA 1
      { current_task := some "inspection", inspection_status := some TurtlebotStatus.Active }
      (fun _ => TurtlebotStatus.Succeeded) (fun _ => some "a")
      (fun t => rfl) (fun t => rfl)).2 0 (by omega) rfl
      (fun u hu => absurd hu (Nat.not_lt_zero u)) (fun u _ _ => rfl)

/-- C5: `_wait_for_updated_task` polls the current run identifier once
per tick and returns the new identifier as soon as it differs from the
previously read one; if the identifier never changes before the elapsed
time exceeds the timeout (`10 * timeout` ticks; the source's default
`timeout` is 20 seconds), it fails with a `TimeoutError` carrying the
last known identifier. -/
theorem C5_wait_for_updated_task (env : Env) (previous : Option String)
    (timeout : Nat) (r : Nat → Option String)
    (hr : ∀ t, get_run_id (env.statusMsg t) = .ok (r t)) :
    ((∀ u, u ≤ 10 * timeout → r u = previous) →
      wait_for_updated_task env previous timeout =
        .error (.timeoutError (.scheduling previous)))
    ∧ (∀ t0, t0 ≤ 10 * timeout → (∀ u, u < t0 → r u = previous) →
        r t0 ≠ previous →
      wait_for_updated_task env previous timeout = .ok (r t0, t0)) :=
  ⟨fun hall => wait_for_updated_task_timeout env previous timeout r hr hall,
   fun t0 h1 hbefore hdiff =>
    wait_for_updated_task_change env previous timeout r hr t0 h1 hbefore hdiff⟩

/-- Witness for `C5_wait_for_updated_task`: an identifier stuck at
`"a"` times out (carrying `"a"`), and an identifier changing to `"b"`
at tick 1 is returned at tick 1. -/
theorem C5_wait_for_updated_task_witness :
    wait_for_updated_task envConstA (some "a") 0 =
      .error (.timeoutError (.scheduling (some "a")))
    ∧ wait_for_updated_task envChangeAB (some "a") 20 = .ok (some "b", 1) := by
  constructor
  · exact (C5_wait_for_updated_task envConstA (some "a") 0 (fun _ => some "a")
      (fun t => rfl)).1 (fun u _ => rfl)
  · exact (C5_wait_for_updated_task envChangeAB (some "a") 20 runIdChangeAB
      (fun t => by cases t with | zero => rfl | succ n => rfl)).2 1 (by omega)
      (fun u hu => by
        have hu0 : u = 0 := by omega
        rw [hu0]; rfl)
      (by decide)

set_option maxRecDepth 8192 in
/-- C3, counterexample: a dispatch timeout is *not* caught at the
scheduler boundary.  With a status topic whose run identifier never
changes, submitting a (supported) `DriveToPose` task makes
`_publish_task` itself fail with the `TimeoutError` raised by
`_wait_for_updated_task`, and `current_task` is left set to
`"navigation"` rather than cleared — contradicting the claim that an
unsupported task variant is the only condition failing the submission
call. -/
theorem C3_counterexample :
    publish_task envConstA 5 { current_task := none, inspection_status := none }
        Task.driveToPose =
      (.error (.timeoutError (.scheduling (some "a"))),
        { current_task := some "navigation", inspection_status := none }) := rfl

/-- C3, amended: only timeouts raised inside `_do_inspection_task` (the
inspection phases) are caught at the scheduler boundary, logged and
converted into a cleared current-task state; a dispatch timeout from
`_wait_for_updated_task` propagates out of the submission call for both
the navigation branch and the inspection branch (both image variants,
whose `_publish_inspection_task` call sits outside the `try`, leaving
`inspection_status` at `Active`), and an unsupported task variant fails
the submission with `NotImplementedError`. -/
theorem C3_timeout_propagation :
    (∀ env τ s, publish_task env τ s Task.unsupported =
      (.error .notImplementedError, s))
    ∧ (∀ env τ s (r : Nat → Option String),
        (∀ t, get_run_id (env.statusMsg t) = .ok (r t)) →
        (∀ u, u ≤ 200 → r u = r 0) →
        publish_task env τ s Task.driveToPose =
          (.error (.timeoutError (.scheduling (r 0))),
            { s with current_task := some "navigation" }))
    ∧ (∀ env τ s (r : Nat → Option String),
        (∀ t, get_run_id (env.statusMsg t) = .ok (r t)) →
        (∀ u, u ≤ 200 → r u = r 0) →
        publish_task env τ s Task.takeImage =
          (.error (.timeoutError (.scheduling (r 0))),
            { current_task := some "inspection"
              inspection_status := some TurtlebotStatus.Active })
        ∧ publish_task env τ s Task.takeThermalImage =
          (.error (.timeoutError (.scheduling (r 0))),
            { current_task := some "inspection"
              inspection_status := some TurtlebotStatus.Active }))
    ∧ (∀ env τ s (r : Nat → Option String) (ns : Nat → TurtlebotStatus),
        (∀ t, get_run_id (env.statusMsg t) = .ok (r t)) →
        (∀ t, navigation_status (env.statusMsg t) = .ok (ns t)) →
        r 1 ≠ r 0 →
        (∀ k, k ≤ τ → ns (1 + k) ≠ TurtlebotStatus.Succeeded) →
        publish_task env τ s Task.takeImage =
          (.ok (r 1),
            { current_task := none
              inspection_status := some TurtlebotStatus.Failure })) := by
  refine ⟨fun env τ s => rfl, fun env τ s r hr hconst => ?_,
    fun env τ s r hr hconst => ?_, ?_⟩
  · simp only [publish_task, hr 0]
    rw [wait_for_updated_task_timeout env (r 0) 20 r hr
      (fun u hu => hconst u (by omega))]
  · refine ⟨?_, ?_⟩ <;>
      (simp only [publish_task, publish_inspection_task, hr 0]
       rw [wait_for_updated_task_timeout env (r 0) 20 r hr
         (fun u hu => hconst u (by omega))])
  · intro env τ s r ns hr hns hdiff hk
    simp only [publish_task, publish_inspection_task, hr 0]
    rw [wait_for_updated_task_change env (r 0) 20 r hr 1 (by omega)
      (fun u hu => by
        have hu0 : u = 0 := by omega
        rw [hu0])
      hdiff]
    simp only []
    rw [do_inspection_task_nav_timeout (shiftEnv env 1) τ _
      (fun k => ns (1 + k)) (fun k => r (1 + k))
      (fun k => hns (1 + k)) (fun k => hr (1 + k)) (fun u hu => hk u hu)]

/-- Witness for `C3_timeout_propagation`: the inspection-branch
dispatch timeout propagates at a concrete environment whose identifier
never changes, and the caught inspection-phase timeout clears the task
at a concrete environment whose identifier changes at tick 1 while the
navigation status stays `Active` (deadline 0 ticks). -/
theorem C3_timeout_propagation_witness :
    publish_task envConstA 0 { current_task := none, inspection_status := none }
        Task.takeImage =
      (.error (.timeoutError (.scheduling (some "a"))),
        { current_task := some "inspection"
          inspection_status := some TurtlebotStatus.Active })
    ∧ publish_task envChangeAB 0 { current_task := none, inspection_status := none }
        Task.takeImage =
      (.ok (some "b"),
        { current_task := none
          inspection_status := some TurtlebotStatus.Failure }) := by
  constructor
  · exact (C3_timeout_propagation.2.2.1 envConstA 0
      { current_task := none, inspection_status := none }
      (fun _ => some "a") (fun t => rfl) (fun u _ => rfl)).1
  · exact C3_timeout_propagation.2.2.2 envChangeAB 0
      { current_task := none, inspection_status := none }
      runIdChangeAB (fun _ => TurtlebotStatus.Active)
      (fun t => by cases t with | zero => rfl | succ n => rfl)
      (fun t => by cases t with | zero => rfl | succ n => rfl)
      (by decide) (fun k _ h => by exact TurtlebotStatus.noConfusion h)

end IsarTurtlebot
